import Mathlib

/-!
Verification of the safety-vetting and sandboxed-execution core of the
Python Code Explainer (src/app.py).

The core is `static_checks` (a deny-list walk over the parsed syntax tree)
followed by `sandbox_run` (parse, vet, then execute with a restricted
builtin table, capturing standard output).  We embed the fragment of the
Python abstract syntax that the checks and the claims exercise: constants,
names, binary addition, attribute access, calls, expression statements,
assignments, both import forms, with / async-with blocks and function
definitions.  `ast.walk` enumerates every node of the tree; the checks are
pure existence tests over that enumeration, so the traversal order (the
source's walk is breadth-first, ours is depth-first) does not affect any
statement proved here -- each proved property is insensitive to which of
several violations is reported first unless it quantifies over the node
itself.  Python's own parser (`ast.parse`) is standard-library code, so a
submission is modelled by its parse outcome: either a `ParseError` or a
`Module`.
-/

namespace PyExplainer

/-- Expressions of the embedded syntax-tree fragment (Python `ast.expr`). -/
inductive Expr where
  | constInt (n : Int)
  | constStr (s : String)
  | name (id : String)
  | add (l r : Expr)
  | attrAccess (value : Expr) (attrName : String)
  | call (func : Expr) (args : List Expr)

/-- Statements of the embedded fragment (Python `ast.stmt`). -/
inductive Stmt where
  | exprStmt (e : Expr)
  | assign (target : String) (e : Expr)
  | importStmt (modules : List String)
  | importFrom (modName : String) (names : List String)
  | withStmt (ctx : Expr) (body : List Stmt)
  | asyncWith (ctx : Expr) (body : List Stmt)
  | funcDef (fname : String) (params : List String) (body : List Stmt)

/-- A parsed module: `ast.parse(code, mode="exec")` yields a Module whose
body is the list of top-level statements. -/
structure Module where
  body : List Stmt

/-- A node yielded by the tree walk: `ast.walk` enumerates statement and
expression nodes alike.  (It also yields the `Module` root itself, which
matches none of the checks, so we omit it from the enumeration.) -/
inductive Node where
  | stmt (s : Stmt)
  | expr (e : Expr)

mutual

/-- All nodes of an expression subtree (the expression itself included). -/
def exprNodes : Expr → List Node
  | .constInt n => [.expr (.constInt n)]
  | .constStr s => [.expr (.constStr s)]
  | .name id => [.expr (.name id)]
  | .add l r => .expr (.add l r) :: (exprNodes l ++ exprNodes r)
  | .attrAccess v a => .expr (.attrAccess v a) :: exprNodes v
  | .call f args => .expr (.call f args) :: (exprNodes f ++ exprListNodes args)

/-- Nodes of a list of expression subtrees. -/
def exprListNodes : List Expr → List Node
  | [] => []
  | e :: rest => exprNodes e ++ exprListNodes rest

end

mutual

/-- All nodes of a statement subtree (the statement itself included). -/
def stmtNodes : Stmt → List Node
  | .exprStmt e => .stmt (.exprStmt e) :: exprNodes e
  | .assign x e => .stmt (.assign x e) :: exprNodes e
  | .importStmt ms => [.stmt (.importStmt ms)]
  | .importFrom m ns => [.stmt (.importFrom m ns)]
  | .withStmt c b => .stmt (.withStmt c b) :: (exprNodes c ++ stmtListNodes b)
  | .asyncWith c b => .stmt (.asyncWith c b) :: (exprNodes c ++ stmtListNodes b)
  | .funcDef f ps b => .stmt (.funcDef f ps b) :: stmtListNodes b

/-- Nodes of a list of statement subtrees. -/
def stmtListNodes : List Stmt → List Node
  | [] => []
  | s :: rest => stmtNodes s ++ stmtListNodes rest

end

/-- Every node of the module's tree, as enumerated by `ast.walk(tree)` in
`static_checks` (src/app.py line 43). -/
def moduleNodes (m : Module) : List Node :=
  stmtListNodes m.body

/-- `DANGEROUS_NAMES` (src/app.py lines 15-19): identifiers that are unsafe
to call directly.  The source keeps them in a Python set; membership is all
that is ever used of it. -/
def DANGEROUS_NAMES : List String :=
  ["exec", "eval", "__import__", "open", "compile",
   "input", "help", "license", "credits",
   "os", "sys", "subprocess", "shutil", "pathlib", "socket", "requests"]

/-- `DANGEROUS_ATTR_PARENTS` (src/app.py line 21): names whose attribute
accesses are unsafe. -/
def DANGEROUS_ATTR_PARENTS : List String :=
  ["os", "sys", "subprocess", "shutil", "pathlib", "socket"]

/-- Names of the `ALLOWED_BUILTINS` table (src/app.py lines 23-36): the
entire ambient capability surface of the sandbox. -/
def ALLOWED_BUILTIN_NAMES : List String :=
  ["print", "range", "len", "enumerate", "sum", "min", "max",
   "sorted", "abs", "any", "all", "zip"]

/-- The rejection message for imports (src/app.py line 46). -/
def importMsg : String := "Imports are not allowed in sandbox mode."

/-- The rejection message for with / async-with blocks (src/app.py line 63). -/
def withMsg : String := "with/async with blocks are not allowed in sandbox mode."

/-- The rejection message for a direct call to a denied name
(src/app.py line 51). -/
def calleeMsg (id : String) : String :=
  "Use of '" ++ id ++ "()' is not allowed in sandbox mode."

/-- The rejection message for an attribute call rooted at a denied module
name (src/app.py line 56). -/
def attrCallMsg (p a : String) : String :=
  "Access to '" ++ p ++ "." ++ a ++ "()' is not allowed in sandbox mode."

/-- The rejection message for a plain attribute access rooted at a denied
module name (src/app.py line 60). -/
def attrMsg (p a : String) : String :=
  "Access to '" ++ p ++ "." ++ a ++ "' is not allowed in sandbox mode."

/-- The body of the `static_checks` loop (src/app.py lines 44-63) applied to
one walked node, parametrised by the two deny tables: `some msg` is the
`SafetyError` message raised at this node, `none` means the node passes.
Each branch mirrors one `isinstance` test of the source: imports, direct
name calls, attribute calls, plain attribute accesses and with blocks. -/
def checkNode (names parents : List String) : Node → Option String
  | .stmt (.importStmt _) => some importMsg
  | .stmt (.importFrom _ _) => some importMsg
  | .stmt (.withStmt _ _) => some withMsg
  | .stmt (.asyncWith _ _) => some withMsg
  | .expr (.call (.name id) _) =>
      if names.contains id then some (calleeMsg id) else none
  | .expr (.call (.attrAccess (.name pid) a) _) =>
      if parents.contains pid then some (attrCallMsg pid a) else none
  | .expr (.attrAccess (.name pid) a) =>
      if parents.contains pid then some (attrMsg pid a) else none
  | _ => none

/-- `static_checks` parametrised by the deny tables: the first walked node
that violates a rule determines the raised `SafetyError` message; `none`
means the whole tree passes vetting. -/
def static_checksT (names parents : List String) (m : Module) : Option String :=
  (moduleNodes m).findSome? (checkNode names parents)

/-- `static_checks(tree)` (src/app.py lines 41-63): vet the tree against
the process-wide deny tables.  `some msg` models raising
`SafetyError(msg)`; `none` models returning normally. -/
def static_checks (m : Module) : Option String :=
  static_checksT DANGEROUS_NAMES DANGEROUS_ATTR_PARENTS m

/-- The two deny tables as one value, for stating that vetting passes them
through unchanged (the source reads `DANGEROUS_NAMES` and
`DANGEROUS_ATTR_PARENTS` and never writes them). -/
structure DenyTables where
  names : List String
  attrParents : List String

/-- The deny tables as initialised at process start. -/
def initialDenyTables : DenyTables :=
  { names := DANGEROUS_NAMES, attrParents := DANGEROUS_ATTR_PARENTS }

/-- `static_checks` with the table state made explicit: the source's loop
only reads the deny sets, so the state component of the result is the input
state. -/
def static_checksSt (m : Module) (t : DenyTables) : Option String × DenyTables :=
  (static_checksT t.names t.attrParents m, t)

/-- Runtime values of the restricted executor.  The fragment executed by
the claims needs integers, strings, the allowed builtin callables, user
function objects (a `def` binds one) and Python's None. -/
inductive Value where
  | int (n : Int)
  | str (s : String)
  | builtin (bname : String)
  | func (fname : String) (params : List String) (body : List Stmt)
  | pyNone

/-- A runtime failure inside accepted code: it propagates to the caller
as-is (src/app.py line 228 surfaces it unchanged).  `unsupported` marks a
construct outside the executed fragment of our model (never reached by the
programs the claims run). -/
inductive RTError where
  | nameError (n : String)
  | typeError (msg : String)
  | unsupported (msg : String)

/-- The state threaded through one execution: the `safe_globals` and
`safe_locals` dictionaries and the stdout capture buffer
(src/app.py lines 109-113).  Dictionaries are association lists where the
most recent binding of a key comes first. -/
structure ExecState where
  safe_globals : List (String × Value)
  safe_locals : List (String × Value)
  output : String

/-- Bind a name in a dictionary: the new binding shadows any older one. -/
def bindVar (env : List (String × Value)) (x : String) (v : Value) :
    List (String × Value) :=
  (x, v) :: env

/-- Name resolution at module level under `exec(bytecode, safe_globals,
safe_locals)`: locals, then globals, then the `__builtins__` table of
`safe_globals`, which is exactly `ALLOWED_BUILTINS`. -/
def lookupName (st : ExecState) (id : String) : Option Value :=
  match st.safe_locals.lookup id with
  | some v => some v
  | none =>
    match st.safe_globals.lookup id with
    | some v => some v
    | none =>
      if ALLOWED_BUILTIN_NAMES.contains id then some (.builtin id) else none

/-- Python's `str` conversion for the values that `print` can receive in
the executed fragment. -/
def pyStr : Value → String
  | .int n => toString n
  | .str s => s
  | .builtin b => "<built-in function " ++ b ++ ">"
  | .func f _ _ => "<function " ++ f ++ ">"
  | .pyNone => "None"

/-- Apply an allowed builtin to evaluated arguments, returning the result
value and the text it writes to the captured stdout.  `print` joins the
`str` of its arguments with spaces and appends a newline; the builtins the
claims never call are outside the modelled fragment. -/
def applyBuiltin (b : String) (args : List Value) :
    Except RTError (Value × String) :=
  if b == "print" then
    .ok (.pyNone, String.intercalate " " (args.map pyStr) ++ "\n")
  else if b == "len" then
    match args with
    | [.str s] => .ok (.int s.length, "")
    | _ => .error (.typeError "len expects one string in the modelled fragment")
  else if b == "abs" then
    match args with
    | [.int n] => .ok (.int (Int.ofNat n.natAbs), "")
    | _ => .error (.typeError "abs expects one int in the modelled fragment")
  else
    .error (.unsupported ("builtin " ++ b ++ " outside the modelled fragment"))

mutual

/-- Evaluate an expression, threading the execution state (the buffer grows
when a call prints). -/
def evalExpr (st : ExecState) : Expr → Except RTError (Value × ExecState)
  | .constInt n => .ok (.int n, st)
  | .constStr s => .ok (.str s, st)
  | .name id =>
    match lookupName st id with
    | some v => .ok (v, st)
    | none => .error (.nameError id)
  | .add l r => do
    let (vl, st1) ← evalExpr st l
    let (vr, st2) ← evalExpr st1 r
    match vl, vr with
    | .int a, .int b => .ok (.int (a + b), st2)
    | .str a, .str b => .ok (.str (a ++ b), st2)
    | _, _ => .error (.typeError "unsupported operand types for +")
  | .attrAccess v a => do
    let (_, _) ← evalExpr st v
    .error (.unsupported ("attribute access ." ++ a ++ " outside the modelled fragment"))
  | .call f args => do
    let (vf, st1) ← evalExpr st f
    let (vargs, st2) ← evalArgs st1 args
    match vf with
    | .builtin b =>
      match applyBuiltin b vargs with
      | .ok (v, out) => .ok (v, { st2 with output := st2.output ++ out })
      | .error e => .error e
    | .func fn _ _ =>
      .error (.unsupported ("call to user function " ++ fn ++ " outside the modelled fragment"))
    | _ => .error (.typeError "object is not callable")

/-- Evaluate call arguments left to right. -/
def evalArgs (st : ExecState) : List Expr → Except RTError (List Value × ExecState)
  | [] => .ok ([], st)
  | e :: rest => do
    let (v, st1) ← evalExpr st e
    let (vs, st2) ← evalArgs st1 rest
    .ok (v :: vs, st2)

end

/-- Execute one top-level statement.  Assignments and `def` bind into
`safe_locals` (the locals dictionary of the `exec` call); imports and with
blocks never reach execution because vetting rejects them first, so they
sit outside the modelled fragment. -/
def execStmt (st : ExecState) : Stmt → Except RTError ExecState
  | .exprStmt e => do
    let (_, st1) ← evalExpr st e
    .ok st1
  | .assign x e => do
    let (v, st1) ← evalExpr st e
    .ok { st1 with safe_locals := bindVar st1.safe_locals x v }
  | .funcDef f ps b =>
    .ok { st with safe_locals := bindVar st.safe_locals f (.func f ps b) }
  | .importStmt _ => .error (.unsupported "import reached execution")
  | .importFrom _ _ => .error (.unsupported "import reached execution")
  | .withStmt _ _ => .error (.unsupported "with reached execution")
  | .asyncWith _ _ => .error (.unsupported "with reached execution")

/-- Execute the statements of a module body in order. -/
def execStmts (st : ExecState) : List Stmt → Except RTError ExecState
  | [] => .ok st
  | s :: rest => do
    let st1 ← execStmt st s
    execStmts st1 rest

/-- The fresh state every `sandbox_run` call constructs (src/app.py lines
109-111): `safe_globals = {"__builtins__": ALLOWED_BUILTINS}` holds no user
binding, `safe_locals = {}` is empty, and the capture buffer is empty.  The
builtin table itself is reachable through `lookupName`, not stored as a
user binding. -/
def initState : ExecState :=
  { safe_globals := [], safe_locals := [], output := "" }

/-- A parse failure of `ast.parse` (a `SyntaxError`): it carries the line
number and the message the UI reports (src/app.py line 227). -/
structure ParseError where
  lineno : Nat
  msg : String

/-- The three disjoint failure kinds of `sandbox_run`: a `SyntaxError` from
parsing, a `SafetyError` from vetting (src/app.py lines 38-39) and a
runtime failure from executing accepted code. -/
inductive SandboxError where
  | parse (e : ParseError)
  | safety (msg : String)
  | runtime (e : RTError)

/-- `sandbox_run` with the final execution state exposed (the source
discards the namespaces and returns only the buffer; we keep them to state
isolation).  A submission is its parse outcome: `ast.parse` is
standard-library code, so a source string that does not form a valid syntax
tree is the `.error` case.  Order of steps as in src/app.py lines 104-114:
parse, `static_checks`, then execute from the freshly built state. -/
def sandbox_runState (src : Except ParseError Module) :
    Except SandboxError ExecState :=
  match src with
  | .error e => .error (.parse e)
  | .ok tree =>
    match static_checks tree with
    | some m => .error (.safety m)
    | none =>
      match execStmts initState tree.body with
      | .error e => .error (.runtime e)
      | .ok st => .ok st

/-- `sandbox_run(code)` (src/app.py lines 104-114): returns the captured
stdout text `buf.getvalue()` on success. -/
def sandbox_run (src : Except ParseError Module) : Except SandboxError String :=
  (sandbox_runState src).map (fun st => st.output)

/-- Two sequential `sandbox_run` calls, first on `t1`, then on `t2`: the
pair of their results, in order. -/
def seqRuns (t1 t2 : Except ParseError Module) :
    Except SandboxError String × Except SandboxError String :=
  (sandbox_run t1, sandbox_run t2)

/-- Whether a node is an import statement (either form). -/
def isImportNode : Node → Bool
  | .stmt (.importStmt _) => true
  | .stmt (.importFrom _ _) => true
  | _ => false

/-- The tree contains an import statement (either form). -/
def containsImport (m : Module) : Bool :=
  (moduleNodes m).any isImportNode

/-- Whether a node is a direct call whose callee is the bare name `f`. -/
def isCallTo (f : String) : Node → Bool
  | .expr (.call (.name id) _) => id == f
  | _ => false

/-- The tree contains a direct call to the bare name `f`. -/
def containsCallTo (m : Module) (f : String) : Bool :=
  (moduleNodes m).any (isCallTo f)

/-- Whether a node is an attribute access (a call's function position
included, since the walk yields that attribute node too) rooted at the bare
name `p`. -/
def isAttrAccessOn (p : String) : Node → Bool
  | .expr (.attrAccess (.name pid) _) => pid == p
  | _ => false

/-- The tree contains an attribute access rooted at the bare name `p`. -/
def containsAttrAccessOn (m : Module) (p : String) : Bool :=
  (moduleNodes m).any (isAttrAccessOn p)

/-- Whether a node is a with or async-with block. -/
def isWithNode : Node → Bool
  | .stmt (.withStmt _ _) => true
  | .stmt (.asyncWith _ _) => true
  | _ => false

/-- The tree contains a with or async-with block. -/
def containsWithBlock (m : Module) : Bool :=
  (moduleNodes m).any isWithNode

/-- The parse of the test submission `print(2 + 2)`
(src/tests/test_sandbox.py line 11). -/
def printTwoPlusTwo : Module :=
  ⟨[.exprStmt (.call (.name "print") [.add (.constInt 2) (.constInt 2)])]⟩

/-- The parse of `import os` (src/tests/test_sandbox.py line 16). -/
def importOsMod : Module :=
  ⟨[.importStmt ["os"]]⟩

/-- The parse of the test submission `open('secret.txt','w')`
(src/tests/test_sandbox.py line 22). -/
def openCallMod : Module :=
  ⟨[.exprStmt (.call (.name "open") [.constStr "secret.txt", .constStr "w"])]⟩

/-- The parse of the plain attribute read `os.path`. -/
def osPathReadMod : Module :=
  ⟨[.exprStmt (.attrAccess (.name "os") "path")]⟩

/-- The parse of a with block `with f: pass`-like shape. -/
def withBlockMod : Module :=
  ⟨[.withStmt (.name "f") []]⟩

/-- The parse of `x = 5`: the first call of the isolation scenario. -/
def assignXFive : Module :=
  ⟨[.assign "x" (.constInt 5)]⟩

/-- The parse of `print(x)`: the second call of the isolation scenario. -/
def printXMod : Module :=
  ⟨[.exprStmt (.call (.name "print") [.name "x"])]⟩

/-- The parse of `requests.get('http://x')`: an attribute call rooted at
`requests`, which is in `DANGEROUS_NAMES` but not in
`DANGEROUS_ATTR_PARENTS`. -/
def requestsAttrCall : Module :=
  ⟨[.exprStmt (.call (.attrAccess (.name "requests") "get") [.constStr "http://x"])]⟩

/-- The parse of `requests('http://x')`: a direct bare call to `requests`. -/
def requestsBareCall : Module :=
  ⟨[.exprStmt (.call (.name "requests") [.constStr "http://x"])]⟩

/-- The parse of `x = eval`: a load of a denied name without a call and
without attribute access. -/
def assignBareEval : Module :=
  ⟨[.assign "x" (.name "eval")]⟩

/-- Python's `str.strip()` with no argument, as the test suite applies it
to the captured output (src/tests/test_sandbox.py line 12): remove leading
and trailing whitespace. -/
def pyStrip (s : String) : String :=
  ⟨((s.data.dropWhile Char.isWhitespace).reverse.dropWhile
      Char.isWhitespace).reverse⟩

/-- If some element of the list maps to `some`, the first-hit search finds
some result. -/
theorem findSome_isSome_of_mem {α β : Type} {f : α → Option β} {l : List α}
    {a : α} (ha : a ∈ l) (hb : (f a).isSome = true) :
    (l.findSome? f).isSome = true := by
  induction l with
  | nil => cases ha
  | cons x xs ih =>
    rw [List.findSome?]
    cases hfx : f x with
    | some b => rfl
    | none =>
      rcases List.mem_cons.mp ha with h | h
      · subst h
        rw [hfx] at hb
        cases hb
      · exact ih h

/-- A node of the tree that violates a check forces `static_checks` to
reject (with the message of whichever violation the walk reports first). -/
theorem static_checks_rejects_of_node {m : Module} {n : Node}
    (hn : n ∈ moduleNodes m)
    (hc : (checkNode DANGEROUS_NAMES DANGEROUS_ATTR_PARENTS n).isSome = true) :
    ∃ msg, static_checks m = some msg :=
  Option.isSome_iff_exists.mp (findSome_isSome_of_mem hn hc)

/-- A vetting rejection makes `sandbox_run` fail with that `SafetyError`,
reaching neither compilation nor execution. -/
theorem sandbox_run_safety_of_checks {m : Module} {msg : String}
    (h : static_checks m = some msg) :
    sandbox_run (.ok m) = .error (.safety msg) := by
  simp [sandbox_run, sandbox_runState, h, Except.map]

/-- An import node always violates the import check. -/
theorem checkNode_isSome_of_import {n : Node} (h : isImportNode n = true) :
    (checkNode DANGEROUS_NAMES DANGEROUS_ATTR_PARENTS n).isSome = true := by
  cases n with
  | expr e => cases e <;> simp [isImportNode] at h
  | stmt s => cases s <;> simp [isImportNode] at h <;> rfl

/-- A with / async-with node always violates the with check. -/
theorem checkNode_isSome_of_with {n : Node} (h : isWithNode n = true) :
    (checkNode DANGEROUS_NAMES DANGEROUS_ATTR_PARENTS n).isSome = true := by
  cases n with
  | expr e => cases e <;> simp [isWithNode] at h
  | stmt s => cases s <;> simp [isWithNode] at h <;> rfl

/-- A direct call to a denied name violates the direct-call check. -/
theorem checkNode_isSome_of_callTo {f : String}
    (hf : DANGEROUS_NAMES.contains f = true) {n : Node}
    (h : isCallTo f n = true) :
    (checkNode DANGEROUS_NAMES DANGEROUS_ATTR_PARENTS n).isSome = true := by
  cases n with
  | stmt s => cases s <;> simp [isCallTo] at h
  | expr e =>
    cases e with
    | call fn args =>
      cases fn <;> simp [isCallTo] at h
      next id =>
        subst h
        have hmem : id ∈ DANGEROUS_NAMES := by simpa using hf
        simp [checkNode, hmem]
    | constInt n => simp [isCallTo] at h
    | constStr s => simp [isCallTo] at h
    | name id => simp [isCallTo] at h
    | add l r => simp [isCallTo] at h
    | attrAccess v a => simp [isCallTo] at h

/-- An attribute access rooted at a denied module name violates the
attribute-access check. -/
theorem checkNode_isSome_of_attrOn {p : String}
    (hp : DANGEROUS_ATTR_PARENTS.contains p = true) {n : Node}
    (h : isAttrAccessOn p n = true) :
    (checkNode DANGEROUS_NAMES DANGEROUS_ATTR_PARENTS n).isSome = true := by
  cases n with
  | stmt s => cases s <;> simp [isAttrAccessOn] at h
  | expr e =>
    cases e with
    | attrAccess v a =>
      cases v <;> simp [isAttrAccessOn] at h
      next pid =>
        subst h
        have hmem : pid ∈ DANGEROUS_ATTR_PARENTS := by simpa using hp
        simp [checkNode, hmem]
    | constInt n => simp [isAttrAccessOn] at h
    | constStr s => simp [isAttrAccessOn] at h
    | name id => simp [isAttrAccessOn] at h
    | add l r => simp [isAttrAccessOn] at h
    | call fn args => simp [isAttrAccessOn] at h

/-- C1: a source whose tree contains an import statement (plain `import` or
`from ... import` form) makes `sandbox_run` raise a `SafetyError` during
vetting: the result is the safety rejection, so neither the compilation
step nor the execution step is reached and no output is produced. -/
theorem sandbox_run_rejects_imports (m : Module)
    (h : containsImport m = true) :
    ∃ msg, static_checks m = some msg ∧
      sandbox_run (.ok m) = .error (.safety msg) := by
  obtain ⟨n, hn, hin⟩ := List.any_eq_true.mp h
  obtain ⟨msg, hmsg⟩ :=
    static_checks_rejects_of_node hn (checkNode_isSome_of_import hin)
  exact ⟨msg, hmsg, sandbox_run_safety_of_checks hmsg⟩

theorem sandbox_run_rejects_imports_witness :
    containsImport importOsMod = true ∧
    ∃ msg, static_checks importOsMod = some msg ∧
      sandbox_run (.ok importOsMod) = .error (.safety msg) :=
  ⟨rfl, sandbox_run_rejects_imports importOsMod rfl⟩

/-- C2: a source whose tree contains a direct call whose callee is a bare
identifier of `DANGEROUS_NAMES` makes `sandbox_run` fail with a
`SafetyError` before any execution; and the check that fires on such a call
node produces a message that names the identifier (the message of the whole
run is this one whenever this violation is the first the walk meets). -/
theorem sandbox_run_rejects_dangerous_calls (m : Module) (f : String)
    (args : List Expr)
    (hf : DANGEROUS_NAMES.contains f = true)
    (hm : containsCallTo m f = true) :
    (∃ msg, sandbox_run (.ok m) = .error (.safety msg)) ∧
    (∃ pre post, checkNode DANGEROUS_NAMES DANGEROUS_ATTR_PARENTS
        (.expr (.call (.name f) args)) = some (pre ++ f ++ post)) := by
  constructor
  · obtain ⟨n, hn, hcall⟩ := List.any_eq_true.mp hm
    obtain ⟨msg, hmsg⟩ :=
      static_checks_rejects_of_node hn (checkNode_isSome_of_callTo hf hcall)
    exact ⟨msg, sandbox_run_safety_of_checks hmsg⟩
  · refine ⟨"Use of '", "()' is not allowed in sandbox mode.", ?_⟩
    have hmem : f ∈ DANGEROUS_NAMES := by simpa using hf
    simp [checkNode, hmem, calleeMsg]

theorem sandbox_run_rejects_dangerous_calls_witness :
    (DANGEROUS_NAMES.contains "open" = true ∧
      containsCallTo openCallMod "open" = true) ∧
    (∃ msg, sandbox_run (.ok openCallMod) = .error (.safety msg)) ∧
    (∃ pre post, checkNode DANGEROUS_NAMES DANGEROUS_ATTR_PARENTS
        (.expr (.call (.name "open") [])) = some (pre ++ "open" ++ post)) :=
  ⟨⟨rfl, rfl⟩,
    sandbox_run_rejects_dangerous_calls openCallMod "open" [] rfl rfl⟩

/-- C3: an attribute access `<name>.<attr>` whose root is a bare identifier
of `DANGEROUS_ATTR_PARENTS` makes the Analyzer reject -- a plain attribute
read suffices, no call is needed -- and the check that fires on the
attribute-call shape produces a message naming both the root and the
attribute. -/
theorem static_checks_rejects_attr_access (m : Module) (p a : String)
    (args : List Expr)
    (hp : DANGEROUS_ATTR_PARENTS.contains p = true)
    (hm : containsAttrAccessOn m p = true) :
    (∃ msg, static_checks m = some msg ∧
      sandbox_run (.ok m) = .error (.safety msg)) ∧
    checkNode DANGEROUS_NAMES DANGEROUS_ATTR_PARENTS
        (.expr (.call (.attrAccess (.name p) a) args)) =
      some ("Access to '" ++ p ++ "." ++ a ++ "()' is not allowed in sandbox mode.") := by
  constructor
  · obtain ⟨n, hn, hattr⟩ := List.any_eq_true.mp hm
    obtain ⟨msg, hmsg⟩ :=
      static_checks_rejects_of_node hn (checkNode_isSome_of_attrOn hp hattr)
    exact ⟨msg, hmsg, sandbox_run_safety_of_checks hmsg⟩
  · have hmem : p ∈ DANGEROUS_ATTR_PARENTS := by simpa using hp
    simp [checkNode, hmem, attrCallMsg]

theorem static_checks_rejects_attr_access_witness :
    (DANGEROUS_ATTR_PARENTS.contains "os" = true ∧
      containsAttrAccessOn osPathReadMod "os" = true) ∧
    (∃ msg, static_checks osPathReadMod = some msg ∧
      sandbox_run (.ok osPathReadMod) = .error (.safety msg)) ∧
    checkNode DANGEROUS_NAMES DANGEROUS_ATTR_PARENTS
        (.expr (.call (.attrAccess (.name "os") "system") [])) =
      some ("Access to '" ++ "os" ++ "." ++ "system" ++ "()' is not allowed in sandbox mode.") :=
  ⟨⟨rfl, rfl⟩,
    static_checks_rejects_attr_access osPathReadMod "os" "system" [] rfl rfl⟩

/-- C4: running the source `print(2 + 2)` through `sandbox_run` succeeds
and returns exactly the string `"4\n"` -- the digit followed by one
newline from the print primitive -- whose stripped form is `"4"`. -/
theorem sandbox_run_print_four :
    sandbox_run (.ok printTwoPlusTwo) = .ok "4\n" ∧
    pyStrip "4\n" = "4" :=
  ⟨rfl, rfl⟩

/-- C5: sequential `sandbox_run` calls are isolated.  The second result of
two sequential runs does not depend on the first run at all (the source
builds fresh `safe_globals`, `safe_locals` and capture buffer inside each
call); every call starts from `initState`, whose dictionaries carry no user
binding; concretely, the run of `x = 5` ends with `x` bound in its scratch
namespace, yet a following run of `print(x)` fails with a NameError for
`x`. -/
theorem sandbox_run_isolated :
    (∀ t1 t1' t2 : Except ParseError Module,
      (seqRuns t1 t2).2 = (seqRuns t1' t2).2) ∧
    initState.safe_locals = [] ∧ initState.safe_globals = [] ∧
    (∃ st, sandbox_runState (.ok assignXFive) = .ok st ∧
      st.safe_locals.lookup "x" = some (.int 5)) ∧
    sandbox_run (.ok printXMod) = .error (.runtime (.nameError "x")) :=
  ⟨fun _ _ _ => rfl, rfl, rfl, ⟨_, rfl, rfl⟩, rfl⟩

/-- C6: a source that does not parse makes `sandbox_run` fail with the
parse error itself -- carrying its line number and message -- which is a
constructor distinct from the safety rejection, and the result is produced
before vetting: it is never classified as a `SafetyError`. -/
theorem sandbox_run_parse_error (e : ParseError) :
    sandbox_run (.error e) = .error (.parse e) ∧
    (∃ pe, sandbox_run (.error e) = .error (.parse pe) ∧
      pe.lineno = e.lineno ∧ pe.msg = e.msg) ∧
    (∀ msg, SandboxError.parse e ≠ SandboxError.safety msg) ∧
    (∀ msg, sandbox_run (.error e) ≠ .error (.safety msg)) := by
  refine ⟨rfl, ⟨e, rfl, rfl, rfl⟩, ?_, ?_⟩
  · intro msg h
    cases h
  · intro msg h
    simp [sandbox_run, sandbox_runState, Except.map] at h

/-- C7: a tree containing a with or async-with block is rejected by the
Analyzer unconditionally, whatever resource the block binds: vetting raises
a `SafetyError` and `sandbox_run` fails with it. -/
theorem static_checks_rejects_with_blocks (m : Module)
    (h : containsWithBlock m = true) :
    ∃ msg, static_checks m = some msg ∧
      sandbox_run (.ok m) = .error (.safety msg) := by
  obtain ⟨n, hn, hw⟩ := List.any_eq_true.mp h
  obtain ⟨msg, hmsg⟩ :=
    static_checks_rejects_of_node hn (checkNode_isSome_of_with hw)
  exact ⟨msg, hmsg, sandbox_run_safety_of_checks hmsg⟩

theorem static_checks_rejects_with_blocks_witness :
    containsWithBlock withBlockMod = true ∧
    ∃ msg, static_checks withBlockMod = some msg ∧
      sandbox_run (.ok withBlockMod) = .error (.safety msg) :=
  ⟨rfl, static_checks_rejects_with_blocks withBlockMod rfl⟩

/-- C8: vetting is idempotent and side-effect-free.  With the deny tables
passed as explicit state, a second call on the same tree returns the same
accept/reject outcome (the same decision and the same rejection reason),
and neither call changes the tables; on the tables as initialised at
process start the stateful form computes exactly `static_checks`. -/
theorem static_checks_idempotent_pure (m : Module) (t : DenyTables) :
    (static_checksSt m ((static_checksSt m t).2)).1 = (static_checksSt m t).1 ∧
    (static_checksSt m t).2 = t ∧
    (static_checksSt m ((static_checksSt m t).2)).2 = t ∧
    (static_checksSt m initialDenyTables).1 = static_checks m :=
  ⟨rfl, rfl, rfl, rfl⟩

/-- C9: the attribute call `requests.get('http://x')` passes vetting even
though the direct bare call `requests('http://x')` is rejected: `requests`
is in `DANGEROUS_NAMES` but not in `DANGEROUS_ATTR_PARENTS`, so neither
attribute rule fires on it. -/
theorem static_checks_requests_gap :
    static_checks requestsAttrCall = none ∧
    static_checks requestsBareCall = some (calleeMsg "requests") ∧
    DANGEROUS_NAMES.contains "requests" = true ∧
    DANGEROUS_ATTR_PARENTS.contains "requests" = false :=
  ⟨rfl, rfl, rfl, rfl⟩

/-- C10: a bare-name load of a denied identifier without a call and without
attribute access -- the single statement `x = eval` -- passes vetting: a
plain `Name` node matches none of the checks, whatever the identifier. -/
theorem static_checks_accepts_bare_name_load :
    static_checks assignBareEval = none ∧
    DANGEROUS_NAMES.contains "eval" = true ∧
    (∀ f : String, checkNode DANGEROUS_NAMES DANGEROUS_ATTR_PARENTS
      (.expr (.name f)) = none) :=
  ⟨rfl, rfl, fun _ => rfl⟩

end PyExplainer
